import Mathlib

/-!
Shallow embedding of the velocity-be connection registry (the `hub` package)
and the admission/cleanup logic that drives it.

Correspondence to the Go source:
* `Client`, `StreamHub`, `Hub.Streams`        — hub.go (`src/unnamed/part_003`, lines 17-51)
* `registerClient`, `unregisterClient`        — part_003 lines 74-156
* `notifyBroadcasterViewerCount`              — part_003 lines 158-183
* `BroadcastToViewers`, `GetViewerCount`      — part_003 lines 186-218
* `CloseStream`, `HasActiveConnections`       — part_003 lines 221-251 and 389-402
* `cleanupInactiveStreams`, `autoCancelStream`— part_003 lines 331-427
* `checkAdmission` / `wsHandler`              — handlers.go lines 138-233
* `readPumpStep`                              — client.go (`src/unnamed/part_001`, lines 17-56)

Modelling conventions:
* Go `*Client` pointer identity is modelled by a `Nat` identifier; the per-client
  buffered channel `Send` (capacity 256) is a `Queue` stored in `HubState.queues`,
  keyed by the client identifier, with an explicit `closed` flag (Go `close(ch)`
  leaves buffered elements readable, so closing keeps `msgs`).
* `select ... case ch <- data: default:` is `trySend`: append when the queue is
  open and below capacity, otherwise drop.  In every state the Go program can
  reach, a queue that is sent to is open (registered clients own open channels),
  so the `closed` guard is never exercised there.
* Fire-and-forget database goroutines (`logStreamJoin`, `logStreamLeave`,
  `updateLastConnectionTime`, `updateStreamData`) are recorded as `DbEvent`s
  appended to `HubState.events`; an event records that the call was dispatched.
* Byte strings (`[]byte` messages) are `List Nat`; a JSON-marshalled
  viewer-count message is kept symbolically as `Msg.viewerCount` (marshalling a
  struct of string/int/bool fields never fails, so the error branch of
  `notifyBroadcasterViewerCount` is dead code).
* Timestamps are `Nat`; the Mongo comparison `$lt cutoff` on a nullable date
  only matches actual dates, hence the `Option Nat` case split in `staleFilter`.
-/

/-- Raw wire bytes of a WebSocket message. -/
abbrev Bytes := List Nat

/-- A message held in a client's outbound queue.  `raw` is an opaque byte string
relayed verbatim; `viewerCount` is the marshalled viewer-count update built in
`notifyBroadcasterViewerCount`; `streamClosed` is the wire-format notification
type the frontend understands (`www/src/types/stream.ts`). -/
inductive Msg : Type
  | raw (data : Bytes)
  | viewerCount (streamId : String) (count : Nat) (newUser : Bool)
  | streamClosed
  deriving DecidableEq, Repr

/-- Capacity of a client's `Send` channel (`make(chan []byte, 256)` in handlers.go). -/
def sendCap : Nat := 256

/-- A client's outbound channel: buffered FIFO contents plus a closed flag. -/
structure Queue : Type where
  msgs : List Msg
  closed : Bool
  deriving DecidableEq, Repr

/-- The fresh channel a handler allocates for a new client. -/
def freshQueue : Queue := { msgs := [], closed := false }

/-- Non-blocking send (`select` with `default`): append if the queue is open and
not full, otherwise drop the message. -/
def trySend (q : Queue) (m : Msg) : Queue :=
  if q.closed then q
  else if q.msgs.length < sendCap then { q with msgs := q.msgs ++ [m] } else q

/-- Mark a queue closed (`close(ch)`); buffered messages stay readable. -/
def closeQ (q : Queue) : Queue := { q with closed := true }

/-- A connected WebSocket client (hub.Client): identity, stream key and role.
`isMobile = true` is the broadcaster (producer); `false` a viewer (subscriber). -/
structure Client : Type where
  id : Nat
  streamID : String
  isMobile : Bool
  deriving DecidableEq, Repr

/-- Per-stream membership record (hub.StreamHub). -/
structure StreamHub : Type where
  streamID : String
  broadcaster : Option Nat
  viewers : List Nat
  deriving DecidableEq, Repr

/-- A dispatched background database call. -/
inductive DbEvent : Type
  | logJoin (clientId : Nat) (streamId : String)
  | logLeave (clientId : Nat) (streamId : String)
  | updateLastConnection (streamId : String)
  | updateStreamData (streamId : String) (payload : Nat)
  deriving DecidableEq, Repr

/-- The registry state: the `Streams` map, every client's outbound queue, and
the trace of dispatched background database calls. -/
structure HubState : Type where
  streams : String -> Option StreamHub
  queues : Nat -> Option Queue
  events : List DbEvent

/-- The state of a freshly constructed hub (`NewHub`). -/
def hubInit : HubState :=
  { streams := fun _ => none, queues := fun _ => none, events := [] }

/-- Point update of the streams map (`h.Streams[k] = v` / `delete`). -/
def updStream (f : String -> Option StreamHub) (k : String) (v : Option StreamHub) :
    String -> Option StreamHub :=
  fun k' => if k' = k then v else f k'

/-- Point update of the queue map. -/
def setQueue (s : HubState) (cid : Nat) (q : Queue) : HubState :=
  { s with queues := fun n => if n = cid then some q else s.queues n }

/-- Close one client's outbound queue. -/
def closeQueue (s : HubState) (cid : Nat) : HubState :=
  match s.queues cid with
  | none => s
  | some q => setQueue s cid (closeQ q)

/-- Close the queues of a list of clients (the `for viewer := range` loops). -/
def closeQueues (s : HubState) (ids : List Nat) : HubState :=
  ids.foldl closeQueue s

/-- Non-blocking enqueue onto one client's queue. -/
def trySendTo (s : HubState) (cid : Nat) (m : Msg) : HubState :=
  match s.queues cid with
  | none => s
  | some q => setQueue s cid (trySend q m)

/-- Go `Viewers[client] = true`: set insertion, kept as an append-if-absent list. -/
def insertViewer (l : List Nat) (c : Nat) : List Nat :=
  if c ∈ l then l else l ++ [c]

/-- Go `delete(Viewers, client)`. -/
def removeViewer (l : List Nat) (c : Nat) : List Nat :=
  l.filter (fun x => x ≠ c)

/-- hub.notifyBroadcasterViewerCount: if the stream has a broadcaster, try to
enqueue a `viewer_count` message carrying `count` and `newUser` on its queue
(drop-and-log when the queue is full). -/
def notifyBroadcasterViewerCount (s : HubState) (hub : StreamHub) (count : Nat)
    (newUser : Bool) : HubState :=
  match hub.broadcaster with
  | none => s
  | some b => trySendTo s b (Msg.viewerCount hub.streamID count newUser)

/-- hub.registerClient (part_003 lines 74-104): create the StreamHub lazily;
a mobile client is installed as broadcaster (overwriting any previous one);
a viewer is added to the set, a join is logged, and the broadcaster is
notified with the post-join count and newUser = true. -/
def registerClient (c : Client) (s : HubState) : HubState :=
  let hub0 := (s.streams c.streamID).getD
    { streamID := c.streamID, broadcaster := none, viewers := [] }
  if c.isMobile then
    let hubB := { hub0 with broadcaster := some c.id }
    { s with streams := updStream s.streams c.streamID (some hubB) }
  else
    let hub1 := { hub0 with viewers := insertViewer hub0.viewers c.id }
    let s1 := { s with
      streams := updStream s.streams c.streamID (some hub1),
      events := s.events ++ [DbEvent.logJoin c.id c.streamID] }
    notifyBroadcasterViewerCount s1 hub1 hub1.viewers.length true

/-- hub.unregisterClient (part_003 lines 106-156): no-op when the stream hub is
absent.  A mobile client clears the broadcaster and closes and removes every
viewer.  A viewer is removed and its queue closed only if it is in the set, a
leave is logged, and the broadcaster is notified with the post-leave count and
newUser = false.  Afterwards an emptied hub is deleted and the last-connection
timestamp update is dispatched. -/
def unregisterClient (c : Client) (s : HubState) : HubState :=
  match s.streams c.streamID with
  | none => s
  | some hub =>
    let step :=
      if c.isMobile then
        ({ streamID := hub.streamID, broadcaster := none, viewers := [] },
          closeQueues s hub.viewers)
      else
        let hub1 := { hub with viewers := removeViewer hub.viewers c.id }
        let sClosed := if c.id ∈ hub.viewers then closeQueue s c.id else s
        let sLeft := { sClosed with
          events := sClosed.events ++ [DbEvent.logLeave c.id c.streamID] }
        (hub1, notifyBroadcasterViewerCount sLeft hub1 hub1.viewers.length false)
    let s2 := { step.2 with streams := updStream step.2.streams c.streamID (some step.1) }
    if step.1.broadcaster = none ∧ step.1.viewers = [] then
      { s2 with
        streams := updStream s2.streams c.streamID none,
        events := s2.events ++ [DbEvent.updateLastConnection c.streamID] }
    else s2

/-- hub.BroadcastToViewers (part_003 lines 186-205): no-op for an unknown
stream, otherwise try-send the message to every viewer's queue. -/
def BroadcastToViewers (streamID : String) (m : Msg) (s : HubState) : HubState :=
  match s.streams streamID with
  | none => s
  | some hub => hub.viewers.foldl (fun st v => trySendTo st v m) s

/-- hub.GetViewerCount (part_003 lines 208-218). -/
def GetViewerCount (streamID : String) (s : HubState) : Nat :=
  match s.streams streamID with
  | none => 0
  | some hub => hub.viewers.length

/-- hub.CloseStream (part_003 lines 221-251): no-op for an unknown stream,
otherwise close the broadcaster's queue, close every viewer's queue, and delete
the stream hub. -/
def CloseStream (streamID : String) (s : HubState) : HubState :=
  match s.streams streamID with
  | none => s
  | some hub =>
    let s1 :=
      match hub.broadcaster with
      | none => s
      | some b => closeQueue s b
    let s2 := closeQueues s1 hub.viewers
    { s2 with streams := updStream s2.streams streamID none }

/-- hub.HasActiveConnections (part_003 lines 389-402). -/
def HasActiveConnections (streamID : String) (s : HubState) : Bool :=
  match s.streams streamID with
  | none => false
  | some hub => hub.broadcaster.isSome || !hub.viewers.isEmpty

/-- One serialized registry operation (delivered on the Register/Unregister
channels or the CloseStream entry point). -/
inductive Op : Type
  | register (c : Client)
  | deregister (c : Client)
  | closeSession (sid : String)
  deriving DecidableEq, Repr

/-- Apply one registry operation. -/
def applyOp (op : Op) (s : HubState) : HubState :=
  match op with
  | .register c => registerClient c s
  | .deregister c => unregisterClient c s
  | .closeSession sid => CloseStream sid s

/-- Run a sequence of registry operations in order. -/
def run (ops : List Op) (s : HubState) : HubState :=
  ops.foldl (fun st op => applyOp op st) s

/-- A stream document in the external store (models.Stream, restricted to the
fields the backend reads and writes; timestamps are abstract `Nat` instants). -/
structure StreamRec : Type where
  streamID : String
  createdAt : Nat
  updatedAt : Nat
  isActive : Bool
  autoCancelled : Bool
  deletedAt : Option Nat
  lastConnectionAt : Option Nat
  deriving DecidableEq, Repr

/-- Combined state of the registry and the external store. -/
structure World : Type where
  hub : HubState
  db : List StreamRec

/-- Look up a stream document by its identifier (Mongo FindOne on streamId). -/
def findRec (db : List StreamRec) (sid : String) : Option StreamRec :=
  db.find? (fun r => r.streamID = sid)

/-- The cleanup query filter (part_003 lines 341-351): active, not deleted, and
last-connection timestamp older than the cutoff — or never connected and
created before the cutoff.  Mongo `$lt` on a date matches only actual dates,
so a null `lastConnectionAt` is handled by the second disjunct alone. -/
def staleFilter (cutoff : Nat) (r : StreamRec) : Bool :=
  r.isActive && r.deletedAt == none &&
    (match r.lastConnectionAt with
     | some t => t < cutoff
     | none => r.createdAt < cutoff)

/-- updateLastConnectionTime (part_003 lines 291-304) applied to the store. -/
def refreshLastConnection (now : Nat) (sid : String) (db : List StreamRec) :
    List StreamRec :=
  db.map (fun r => if r.streamID = sid then { r with lastConnectionAt := some now } else r)

/-- hub.autoCancelStream (part_003 lines 404-427): mark the document inactive,
auto-cancelled and deleted, then close any remaining connections. -/
def autoCancelStream (now : Nat) (sid : String) (w : World) : World :=
  let db1 := w.db.map (fun r =>
    if r.streamID = sid then
      { r with isActive := false, autoCancelled := true,
               deletedAt := some now, updatedAt := now }
    else r)
  { hub := CloseStream sid w.hub, db := db1 }

/-- Processing of one cleanup candidate (the loop body of
cleanupInactiveStreams, part_003 lines 366-381): refresh-and-skip when the
registry still holds connections for the stream, otherwise auto-cancel. -/
def sweepStep (now : Nat) (w : World) (r : StreamRec) : World :=
  if HasActiveConnections r.streamID w.hub then
    { w with db := refreshLastConnection now r.streamID w.db }
  else autoCancelStream now r.streamID w

/-- hub.cleanupInactiveStreams (part_003 lines 331-386): collect the stale
candidates from the store, then process each with `sweepStep`. -/
def cleanupInactiveStreams (now cutoff : Nat) (w : World) : World :=
  (w.db.filter (staleFilter cutoff)).foldl (sweepStep now) w

/-- Outcome of a WebSocket connection attempt or a delete request, as the
handler maps it to HTTP: 400, 404, 410 Gone, or success. -/
inductive AdmitResult : Type
  | badRequest
  | notFound
  | gone
  | admitted
  deriving DecidableEq, Repr

/-- The admission check shared by MobileWebSocketHandler and
ViewerWebSocketHandler (handlers.go lines 138-233): empty identifier is a 400,
a stream missing from the store is a 404, a soft-deleted stream is a 410 Gone;
only otherwise does the upgrade and registration proceed. -/
def checkAdmission (streamID : String) (db : List StreamRec) : AdmitResult :=
  if streamID = "" then .badRequest
  else
    match findRec db streamID with
    | none => .notFound
    | some r =>
      match r.deletedAt with
      | some _ => .gone
      | none => .admitted

/-- A WebSocket handler run to completion: on admission it allocates the
client's 256-slot channel and registers it with the hub; on rejection the hub
is untouched.  `isMobile` selects between the two handler endpoints, whose
admission logic is identical. -/
def wsHandler (isMobile : Bool) (streamID : String) (cid : Nat) (db : List StreamRec)
    (s : HubState) : AdmitResult × HubState :=
  match checkAdmission streamID db with
  | .admitted =>
    (.admitted,
      registerClient { id := cid, streamID := streamID, isMobile := isMobile }
        (setQueue s cid freshQueue))
  | r => (r, s)

/-- DeleteStreamHandler (handlers.go lines 87-135): 404 when the document is
missing, 400 when already soft-deleted; otherwise soft-delete the document and
call CloseStream on the hub. -/
def deleteStream (now : Nat) (streamID : String) (w : World) : AdmitResult × World :=
  match findRec w.db streamID with
  | none => (.notFound, w)
  | some r =>
    match r.deletedAt with
    | some _ => (.badRequest, w)
    | none =>
      let db1 := w.db.map (fun d =>
        if d.streamID = streamID then
          { d with deletedAt := some now, isActive := false, updatedAt := now }
        else d)
      (.admitted, { hub := CloseStream streamID w.hub, db := db1 })

/-- One inbound WebSocket frame as seen after `json.Unmarshal`: either not
valid JSON, or an envelope with its raw bytes, type string and opaque payload. -/
inductive Inbound : Type
  | notJSON (bytes : Bytes)
  | json (bytes : Bytes) (ty : String) (payload : Nat)
  deriving DecidableEq, Repr

/-- Whether an inbound frame is a well-formed `stream_data` envelope. -/
def isStreamData : Inbound -> Bool
  | .notJSON _ => false
  | .json _ ty _ => ty = "stream_data"

/-- Processing of one successfully read message in Client.ReadPump (part_001
lines 39-54): only a mobile client's valid-JSON `stream_data` envelope has any
effect — the payload is persisted in the background and the raw bytes are
fanned out to the viewers.  Every other message is ignored and the loop
continues reading (the loop exits only on a transport read error, which is
outside this function). -/
def readPumpStep (c : Client) (m : Inbound) (s : HubState) : HubState :=
  if c.isMobile then
    match m with
    | .notJSON _ => s
    | .json bytes ty payload =>
      if ty = "stream_data" then
        BroadcastToViewers c.streamID (Msg.raw bytes)
          { s with events := s.events ++ [DbEvent.updateStreamData c.streamID payload] }
      else s
  else s

/-- The session identifier an operation targets. -/
def opSession : Op -> String
  | .register c => c.streamID
  | .deregister c => c.streamID
  | .closeSession sid => sid

/-- The subscriber set the registry currently holds for a session. -/
def currentViewers (s : HubState) (sid : String) : List Nat :=
  match s.streams sid with
  | none => []
  | some hub => hub.viewers

/-- Number of subscriber registrations in an operation sequence. -/
def subRegCount (ops : List Op) : Nat :=
  (ops.filter (fun op =>
    match op with
    | .register c => !c.isMobile
    | _ => false)).length

/-- Number of subscriber deregistrations in an operation sequence. -/
def subDeregCount (ops : List Op) : Nat :=
  (ops.filter (fun op =>
    match op with
    | .deregister c => !c.isMobile
    | _ => false)).length

/-- Traces of Register/Deregister calls in which every subscriber registration
adds a connection not currently in the subscriber set and every deregistration
removes one that is (each connection registered at most once at a time, as the
handlers guarantee by constructing a fresh client per accepted connection). -/
def validTrace (s : HubState) : List Op -> Bool
  | [] => true
  | op :: rest =>
    (match op with
     | .register c => c.isMobile || !((currentViewers s c.streamID).contains c.id)
     | .deregister c => !c.isMobile && (currentViewers s c.streamID).contains c.id
     | .closeSession _ => false) && validTrace (applyOp op s) rest

/-- Every session present in the registry holds at least one connection. -/
def noEmptySessions (s : HubState) : Prop :=
  ∀ sid hub, s.streams sid = some hub → hub.broadcaster ≠ none ∨ hub.viewers ≠ []

/-- States whose subscriber lists are duplicate-free (Go stores them as map
keys, so this holds of every reachable state). -/
def viewersWF (s : HubState) : Prop :=
  ∀ sid hub, s.streams sid = some hub → hub.viewers.Nodup

/- Concrete fixtures used by the scenario theorems and witnesses. -/

/-- The producer of the C6 scenario. -/
def cProd : Client := { id := 0, streamID := "abc", isMobile := true }

/-- Subscriber A of the C6 scenario. -/
def cSubA : Client := { id := 1, streamID := "abc", isMobile := false }

/-- Subscriber B of the C6 scenario. -/
def cSubB : Client := { id := 2, streamID := "abc", isMobile := false }

/-- Scenario state after Register(producer). -/
def sAfterP : HubState := registerClient cProd (setQueue hubInit 0 freshQueue)

/-- Scenario state after Register(subscriber A). -/
def sAfterA : HubState := registerClient cSubA (setQueue sAfterP 1 freshQueue)

/-- Scenario state after Register(subscriber B). -/
def sAfterB : HubState := registerClient cSubB (setQueue sAfterA 2 freshQueue)

/-- Scenario state after Deregister(subscriber A). -/
def sAfterDel : HubState := unregisterClient cSubA sAfterB

/-- A registry state with one producer (0) and one subscriber (1) on "s". -/
def sFix : HubState :=
  { streams := fun k =>
      if k = "s" then some { streamID := "s", broadcaster := some 0, viewers := [1] }
      else none,
    queues := fun n => if n = 0 ∨ n = 1 then some freshQueue else none,
    events := [] }

/-- A subscriber-role connection that is not registered in `sFix`. -/
def cGhost : Client := { id := 2, streamID := "s", isMobile := false }

/-- A registry state with a producer (0) and two subscribers (1, 2) on "s". -/
def sFix2 : HubState :=
  { streams := fun k =>
      if k = "s" then some { streamID := "s", broadcaster := some 0, viewers := [1, 2] }
      else none,
    queues := fun n => if n ≤ 2 then some freshQueue else none,
    events := [] }

/-- The producer client registered in `sFix2`. -/
def cProdFix : Client := { id := 0, streamID := "s", isMobile := true }

/-- A world for the deletion scenario: session "s" live in the store, one
subscriber (1) connected with an empty outbound queue. -/
def wDel : World :=
  { hub :=
      { streams := fun k =>
          if k = "s" then some { streamID := "s", broadcaster := none, viewers := [1] }
          else none,
        queues := fun n => if n = 1 then some freshQueue else none,
        events := [] },
    db := [{ streamID := "s", createdAt := 0, updatedAt := 0, isActive := true,
             autoCancelled := false, deletedAt := none, lastConnectionAt := none }] }

/-- A stale, inactive stream record for the sweep witness. -/
def recStale : StreamRec :=
  { streamID := "old", createdAt := 0, updatedAt := 0, isActive := true,
    autoCancelled := false, deletedAt := none, lastConnectionAt := some 10 }

/-- A world for the sweep witness: "old" is stale with no connections. -/
def wSweep : World :=
  { hub := hubInit, db := [recStale] }

/-- A store for the admission witness: "dead" is soft-deleted. -/
def dbAdmit : List StreamRec :=
  [{ streamID := "dead", createdAt := 0, updatedAt := 5, isActive := false,
     autoCancelled := false, deletedAt := some 5, lastConnectionAt := none }]

/-- Operation sequence refuting the unrestricted net-count law: a producer
deregistration wipes out the one registered subscriber. -/
def opsCex : List Op :=
  [Op.register { id := 0, streamID := "s", isMobile := true },
   Op.register { id := 1, streamID := "s", isMobile := false },
   Op.deregister { id := 0, streamID := "s", isMobile := true }]

/-- A valid single-session trace: producer joins, two subscribers join, one
leaves. -/
def opsW : List Op :=
  [Op.register { id := 0, streamID := "s", isMobile := true },
   Op.register { id := 1, streamID := "s", isMobile := false },
   Op.register { id := 2, streamID := "s", isMobile := false },
   Op.deregister { id := 1, streamID := "s", isMobile := false }]

/-! ### Lemmas about queues and the state helpers -/

theorem trySend_closed (q : Queue) (m : Msg) : (trySend q m).closed = q.closed := by
  unfold trySend
  split
  · rfl
  · split <;> rfl

theorem updStream_apply (f : String -> Option StreamHub) (k : String) (v : Option StreamHub)
    (k' : String) : updStream f k v k' = if k' = k then v else f k' := rfl

theorem setQueue_streams (s : HubState) (cid : Nat) (q : Queue) :
    (setQueue s cid q).streams = s.streams := rfl

theorem setQueue_events (s : HubState) (cid : Nat) (q : Queue) :
    (setQueue s cid q).events = s.events := rfl

theorem closeQueue_streams (s : HubState) (cid : Nat) :
    (closeQueue s cid).streams = s.streams := by
  unfold closeQueue
  cases s.queues cid <;> rfl

theorem closeQueue_events (s : HubState) (cid : Nat) :
    (closeQueue s cid).events = s.events := by
  unfold closeQueue
  cases s.queues cid <;> rfl

theorem closeQueue_queues (s : HubState) (cid n : Nat) :
    (closeQueue s cid).queues n =
      if n = cid then (s.queues cid).map closeQ else s.queues n := by
  unfold closeQueue
  rcases hq : s.queues cid with _ | q
  · by_cases h : n = cid
    · rw [if_pos h, h, hq]
      rfl
    · rw [if_neg h]
  · rfl

theorem closeQueues_streams (ids : List Nat) (s : HubState) :
    (closeQueues s ids).streams = s.streams := by
  induction ids generalizing s with
  | nil => rfl
  | cons u t ih =>
    show (closeQueues (closeQueue s u) t).streams = s.streams
    rw [ih, closeQueue_streams]

theorem closeQueues_events (ids : List Nat) (s : HubState) :
    (closeQueues s ids).events = s.events := by
  induction ids generalizing s with
  | nil => rfl
  | cons u t ih =>
    show (closeQueues (closeQueue s u) t).events = s.events
    rw [ih, closeQueue_events]

theorem closeQueues_queues (ids : List Nat) (s : HubState) (n : Nat) :
    (closeQueues s ids).queues n =
      if n ∈ ids then (s.queues n).map closeQ else s.queues n := by
  induction ids generalizing s with
  | nil => simp [closeQueues]
  | cons u t ih =>
    show (closeQueues (closeQueue s u) t).queues n = _
    rw [ih]
    by_cases ht : n ∈ t
    · rw [if_pos ht, if_pos (List.mem_cons_of_mem u ht), closeQueue_queues]
      by_cases hu : n = u
      · subst hu
        rw [if_pos rfl]
        cases s.queues n <;> simp [closeQ]
      · rw [if_neg hu]
    · rw [if_neg ht, closeQueue_queues]
      by_cases hu : n = u
      · subst hu
        rw [if_pos rfl, if_pos (List.mem_cons_self n t)]
      · rw [if_neg hu, if_neg (by simp [hu, ht])]

theorem trySendTo_streams (s : HubState) (cid : Nat) (m : Msg) :
    (trySendTo s cid m).streams = s.streams := by
  unfold trySendTo
  cases s.queues cid <;> rfl

theorem trySendTo_events (s : HubState) (cid : Nat) (m : Msg) :
    (trySendTo s cid m).events = s.events := by
  unfold trySendTo
  cases s.queues cid <;> rfl

theorem trySendTo_queues (s : HubState) (cid : Nat) (m : Msg) (n : Nat) :
    (trySendTo s cid m).queues n =
      if n = cid then (s.queues cid).map (fun q => trySend q m) else s.queues n := by
  unfold trySendTo
  rcases hq : s.queues cid with _ | q
  · by_cases h : n = cid
    · rw [if_pos h, h, hq]
      rfl
    · rw [if_neg h]
  · rfl

theorem notify_streams (s : HubState) (hub : StreamHub) (count : Nat) (nu : Bool) :
    (notifyBroadcasterViewerCount s hub count nu).streams = s.streams := by
  unfold notifyBroadcasterViewerCount
  cases hub.broadcaster with
  | none => rfl
  | some b => exact trySendTo_streams s b _

theorem notify_events (s : HubState) (hub : StreamHub) (count : Nat) (nu : Bool) :
    (notifyBroadcasterViewerCount s hub count nu).events = s.events := by
  unfold notifyBroadcasterViewerCount
  cases hub.broadcaster with
  | none => rfl
  | some b => exact trySendTo_events s b _

theorem notify_queues (s : HubState) (hub : StreamHub) (count : Nat) (nu : Bool) (n : Nat) :
    (notifyBroadcasterViewerCount s hub count nu).queues n =
      match hub.broadcaster with
      | none => s.queues n
      | some b =>
        if n = b then
          (s.queues b).map (fun q => trySend q (Msg.viewerCount hub.streamID count nu))
        else s.queues n := by
  unfold notifyBroadcasterViewerCount
  cases hub.broadcaster with
  | none => rfl
  | some b => exact trySendTo_queues s b _ n

theorem insertViewer_ne_nil (l : List Nat) (c : Nat) : insertViewer l c ≠ [] := by
  unfold insertViewer
  split
  · exact List.ne_nil_of_mem (by assumption)
  · simp

/-! ### Characterizations of the registry operations -/

theorem registerClient_streams_mobile (c : Client) (s : HubState) (hm : c.isMobile = true)
    (sid : String) :
    (registerClient c s).streams sid =
      if sid = c.streamID then
        some { (s.streams c.streamID).getD
                 { streamID := c.streamID, broadcaster := none, viewers := [] } with
               broadcaster := some c.id }
      else s.streams sid := by
  simp only [registerClient, hm, if_true]
  rfl

theorem registerClient_streams_sub (c : Client) (s : HubState) (hm : c.isMobile = false)
    (sid : String) :
    (registerClient c s).streams sid =
      if sid = c.streamID then
        some { (s.streams c.streamID).getD
                 { streamID := c.streamID, broadcaster := none, viewers := [] } with
               viewers :=
                 insertViewer ((s.streams c.streamID).getD
                   { streamID := c.streamID, broadcaster := none, viewers := [] }).viewers c.id }
      else s.streams sid := by
  simp only [registerClient, hm, Bool.false_eq_true, if_false, notify_streams]
  rfl

theorem registerClient_events_mobile (c : Client) (s : HubState) (hm : c.isMobile = true) :
    (registerClient c s).events = s.events := by
  simp only [registerClient, hm, if_true]

theorem registerClient_queues_mobile (c : Client) (s : HubState) (hm : c.isMobile = true) :
    (registerClient c s).queues = s.queues := by
  simp only [registerClient, hm, if_true]

theorem unregisterClient_absent (c : Client) (s : HubState)
    (hs : s.streams c.streamID = none) : unregisterClient c s = s := by
  simp only [unregisterClient, hs]

theorem unregisterClient_streams_mobile (c : Client) (s : HubState) (hub : StreamHub)
    (hm : c.isMobile = true) (hs : s.streams c.streamID = some hub) (sid : String) :
    (unregisterClient c s).streams sid = if sid = c.streamID then none else s.streams sid := by
  simp only [unregisterClient, hs, hm, if_true]
  rw [if_pos (by simp)]
  simp only [updStream_apply, closeQueues_streams]
  by_cases he : sid = c.streamID
  · rw [if_pos he, if_pos he]
  · rw [if_neg he, if_neg he, if_neg he]

theorem unregisterClient_queues_mobile (c : Client) (s : HubState) (hub : StreamHub)
    (hm : c.isMobile = true) (hs : s.streams c.streamID = some hub) :
    (unregisterClient c s).queues = (closeQueues s hub.viewers).queues := by
  simp only [unregisterClient, hs, hm, if_true]
  rw [if_pos (by simp)]

theorem unregisterClient_streams_sub (c : Client) (s : HubState) (hub : StreamHub)
    (hm : c.isMobile = false) (hs : s.streams c.streamID = some hub) (sid : String) :
    (unregisterClient c s).streams sid =
      if sid = c.streamID then
        (if hub.broadcaster = none ∧ removeViewer hub.viewers c.id = [] then none
         else some { hub with viewers := removeViewer hub.viewers c.id })
      else s.streams sid := by
  simp only [unregisterClient, hs, hm, Bool.false_eq_true, if_false]
  have hbase : (if c.id ∈ hub.viewers then closeQueue s c.id else s).streams = s.streams := by
    split
    · rw [closeQueue_streams]
    · rfl
  split
  · next hcond =>
    simp only [updStream_apply, notify_streams]
    by_cases he : sid = c.streamID
    · simp only [if_pos he, if_pos hcond]
    · simp only [if_neg he]
      exact congrFun hbase sid
  · next hcond =>
    simp only [updStream_apply, notify_streams]
    by_cases he : sid = c.streamID
    · simp only [if_pos he, if_neg hcond]
    · simp only [if_neg he]
      exact congrFun hbase sid

theorem unregisterClient_queues_sub (c : Client) (s : HubState) (hub : StreamHub)
    (hm : c.isMobile = false) (hs : s.streams c.streamID = some hub) (n : Nat) :
    (unregisterClient c s).queues n =
      (notifyBroadcasterViewerCount
        (if c.id ∈ hub.viewers then closeQueue s c.id else s)
        { hub with viewers := removeViewer hub.viewers c.id }
        (removeViewer hub.viewers c.id).length false).queues n := by
  simp only [unregisterClient, hs, hm, Bool.false_eq_true, if_false]
  split <;> · dsimp only
              rw [notify_queues, notify_queues]

theorem CloseStream_absent (sid : String) (s : HubState) (hs : s.streams sid = none) :
    CloseStream sid s = s := by
  simp only [CloseStream, hs]

theorem CloseStream_streams (sid : String) (s : HubState) (sid' : String) :
    (CloseStream sid s).streams sid' = if sid' = sid then none else s.streams sid' := by
  rcases hs : s.streams sid with _ | hub
  · rw [CloseStream_absent sid s hs]
    by_cases he : sid' = sid
    · rw [if_pos he, he, hs]
    · rw [if_neg he]
  · simp only [CloseStream, hs, updStream_apply, closeQueues_streams]
    rcases hub.broadcaster with _ | b
    · rfl
    · simp only [closeQueue_streams]

theorem CloseStream_queues (sid : String) (s : HubState) (hub : StreamHub)
    (hs : s.streams sid = some hub) (n : Nat) :
    (CloseStream sid s).queues n =
      if n ∈ hub.viewers ∨ hub.broadcaster = some n then (s.queues n).map closeQ
      else s.queues n := by
  simp only [CloseStream, hs]
  rcases hb : hub.broadcaster with _ | b
  · rw [closeQueues_queues]
    simp only [hb]
    by_cases hv : n ∈ hub.viewers
    · rw [if_pos hv, if_pos (Or.inl hv)]
    · rw [if_neg hv, if_neg (by simp [hv])]
  · rw [closeQueues_queues, closeQueue_queues]
    by_cases hv : n ∈ hub.viewers
    · rw [if_pos hv, if_pos (Or.inl hv)]
      by_cases hnb : n = b
      · subst hnb
        rw [if_pos rfl]
        cases s.queues n <;> simp [closeQ]
      · rw [if_neg hnb]
    · rw [if_neg hv]
      by_cases hnb : n = b
      · subst hnb
        rw [if_pos rfl, if_pos (Or.inr rfl)]
      · have hnot : ¬(n ∈ hub.viewers ∨ (some b : Option Nat) = some n) := by
          rintro (h | h)
          · exact hv h
          · exact hnb (Option.some.inj h).symm
        rw [if_neg hnb, if_neg hnot]

/-! ### The no-empty-session invariant (claim C1) -/

theorem noEmpty_hubInit : noEmptySessions hubInit := by
  intro sid hub h
  simp [hubInit] at h

theorem noEmpty_register (c : Client) (s : HubState) (h : noEmptySessions s) :
    noEmptySessions (registerClient c s) := by
  intro sid hub hhub
  by_cases hm : c.isMobile = true
  · rw [registerClient_streams_mobile c s hm] at hhub
    by_cases he : sid = c.streamID
    · rw [if_pos he] at hhub
      cases hhub
      left
      simp
    · rw [if_neg he] at hhub
      exact h sid hub hhub
  · rw [registerClient_streams_sub c s (by simpa using hm)] at hhub
    by_cases he : sid = c.streamID
    · rw [if_pos he] at hhub
      cases hhub
      right
      exact insertViewer_ne_nil _ _
    · rw [if_neg he] at hhub
      exact h sid hub hhub

theorem noEmpty_deregister (c : Client) (s : HubState) (h : noEmptySessions s) :
    noEmptySessions (unregisterClient c s) := by
  intro sid hub hhub
  rcases hs : s.streams c.streamID with _ | hub0
  · rw [unregisterClient_absent c s hs] at hhub
    exact h sid hub hhub
  · by_cases hm : c.isMobile = true
    · rw [unregisterClient_streams_mobile c s hub0 hm hs] at hhub
      by_cases he : sid = c.streamID
      · rw [if_pos he] at hhub
        exact absurd hhub (by simp)
      · rw [if_neg he] at hhub
        exact h sid hub hhub
    · rw [unregisterClient_streams_sub c s hub0 (by simpa using hm) hs] at hhub
      by_cases he : sid = c.streamID
      · rw [if_pos he] at hhub
        split at hhub
        · exact absurd hhub (by simp)
        · next hcond =>
          cases hhub
          by_contra hno
          push_neg at hno
          exact hcond ⟨hno.1, hno.2⟩
      · rw [if_neg he] at hhub
        exact h sid hub hhub

theorem noEmpty_closeSession (sid0 : String) (s : HubState) (h : noEmptySessions s) :
    noEmptySessions (CloseStream sid0 s) := by
  intro sid hub hhub
  rw [CloseStream_streams] at hhub
  by_cases he : sid = sid0
  · rw [if_pos he] at hhub
    exact absurd hhub (by simp)
  · rw [if_neg he] at hhub
    exact h sid hub hhub

theorem noEmpty_applyOp (op : Op) (s : HubState) (h : noEmptySessions s) :
    noEmptySessions (applyOp op s) := by
  cases op with
  | register c => exact noEmpty_register c s h
  | deregister c => exact noEmpty_deregister c s h
  | closeSession sid => exact noEmpty_closeSession sid s h

theorem noEmpty_run (ops : List Op) (s : HubState) (h : noEmptySessions s) :
    noEmptySessions (run ops s) := by
  induction ops generalizing s with
  | nil => exact h
  | cons op rest ih =>
    show noEmptySessions (run rest (applyOp op s))
    exact ih (applyOp op s) (noEmpty_applyOp op s h)

/-- C1: for every sequence of Register, Deregister and CloseSession operations
starting from the empty registry, a session identifier is present in the
Streams map only with at least one connection: every observable session entry
has a broadcaster or a nonempty viewer set (no empty sessions ever observable). -/
theorem empty_session_invariant (ops : List Op) (sid : String) (hub : StreamHub)
    (h : (run ops hubInit).streams sid = some hub) :
    hub.broadcaster ≠ none ∨ hub.viewers ≠ [] :=
  noEmpty_run ops hubInit noEmpty_hubInit sid hub h

theorem empty_session_invariant_witness :
    ({ streamID := "s", broadcaster := some 0, viewers := [] } : StreamHub).broadcaster ≠ none ∨
      ({ streamID := "s", broadcaster := some 0, viewers := [] } : StreamHub).viewers ≠ [] :=
  empty_session_invariant [Op.register { id := 0, streamID := "s", isMobile := true }] "s"
    { streamID := "s", broadcaster := some 0, viewers := [] } (by decide)

/-- C2: deregistering the producer connection of a session closes every current
subscriber's outbound queue and leaves the session absent from the Registry
(the subscriber set is cleared with the whole entry). -/
theorem producer_deregister_closes_session (c : Client) (s : HubState) (hub : StreamHub)
    (hm : c.isMobile = true) (hs : s.streams c.streamID = some hub)
    (_hb : hub.broadcaster = some c.id) :
    (unregisterClient c s).streams c.streamID = none ∧
      ∀ v ∈ hub.viewers, (unregisterClient c s).queues v = (s.queues v).map closeQ := by
  constructor
  · rw [unregisterClient_streams_mobile c s hub hm hs, if_pos rfl]
  · intro v hv
    rw [unregisterClient_queues_mobile c s hub hm hs, closeQueues_queues, if_pos hv]

theorem producer_deregister_closes_session_witness :
    (unregisterClient cProdFix sFix2).streams cProdFix.streamID = none ∧
      (unregisterClient cProdFix sFix2).queues 1 = (sFix2.queues 1).map closeQ ∧
      (unregisterClient cProdFix sFix2).queues 2 = (sFix2.queues 2).map closeQ :=
  ⟨(producer_deregister_closes_session cProdFix sFix2
      { streamID := "s", broadcaster := some 0, viewers := [1, 2] }
      (by decide) (by decide) (by decide)).1,
   (producer_deregister_closes_session cProdFix sFix2
      { streamID := "s", broadcaster := some 0, viewers := [1, 2] }
      (by decide) (by decide) (by decide)).2 1 (by decide),
   (producer_deregister_closes_session cProdFix sFix2
      { streamID := "s", broadcaster := some 0, viewers := [1, 2] }
      (by decide) (by decide) (by decide)).2 2 (by decide)⟩

/-! ### Fanout (claim C7) -/

theorem broadcast_fold_queues (ids : List Nat) (s : HubState) (m : Msg) (hnd : ids.Nodup)
    (n : Nat) :
    ((ids.foldl (fun st v => trySendTo st v m) s).queues n)
      = if n ∈ ids then (s.queues n).map (fun q => trySend q m) else s.queues n := by
  induction ids generalizing s with
  | nil => simp
  | cons u t ih =>
    have hnd' := List.nodup_cons.mp hnd
    show ((t.foldl (fun st v => trySendTo st v m) (trySendTo s u m)).queues n) = _
    rw [ih (trySendTo s u m) hnd'.2]
    by_cases ht : n ∈ t
    · rw [if_pos ht, if_pos (List.mem_cons_of_mem u ht), trySendTo_queues]
      rw [if_neg (fun h : n = u => hnd'.1 (h ▸ ht))]
    · rw [if_neg ht, trySendTo_queues]
      by_cases hnu : n = u
      · subst hnu
        rw [if_pos rfl, if_pos (List.mem_cons_self n t)]
      · rw [if_neg hnu, if_neg (by simp [hnu, ht])]

theorem broadcast_fold_streams (ids : List Nat) (s : HubState) (m : Msg) :
    (ids.foldl (fun st v => trySendTo st v m) s).streams = s.streams := by
  induction ids generalizing s with
  | nil => rfl
  | cons u t ih =>
    show (t.foldl (fun st v => trySendTo st v m) (trySendTo s u m)).streams = s.streams
    rw [ih, trySendTo_streams]

theorem broadcast_fold_events (ids : List Nat) (s : HubState) (m : Msg) :
    (ids.foldl (fun st v => trySendTo st v m) s).events = s.events := by
  induction ids generalizing s with
  | nil => rfl
  | cons u t ih =>
    show (t.foldl (fun st v => trySendTo st v m) (trySendTo s u m)).events = s.events
    rw [ih, trySendTo_events]

/-- C7: Fanout is a total function that never fails.  For an absent session it
is a no-op; otherwise it try-sends the message, unchanged, onto every current
subscriber's queue — a full queue drops the message for that subscriber alone
(`trySend`) — and touches no other queue (in particular not the producer's,
which is never a member of the viewer set), no membership, and no persistence. -/
theorem fanout_semantics (sid : String) (m : Msg) (s : HubState) :
    (s.streams sid = none → BroadcastToViewers sid m s = s) ∧
    ∀ hub, s.streams sid = some hub → hub.viewers.Nodup →
      (∀ v ∈ hub.viewers,
        (BroadcastToViewers sid m s).queues v = (s.queues v).map (fun q => trySend q m)) ∧
      (∀ n, n ∉ hub.viewers → (BroadcastToViewers sid m s).queues n = s.queues n) ∧
      (BroadcastToViewers sid m s).streams = s.streams ∧
      (BroadcastToViewers sid m s).events = s.events := by
  constructor
  · intro hs
    simp only [BroadcastToViewers, hs]
  · intro hub hs hnd
    simp only [BroadcastToViewers, hs]
    refine ⟨?_, ?_, ?_, ?_⟩
    · intro v hv
      rw [broadcast_fold_queues hub.viewers s m hnd, if_pos hv]
    · intro n hn
      rw [broadcast_fold_queues hub.viewers s m hnd, if_neg hn]
    · exact broadcast_fold_streams hub.viewers s m
    · exact broadcast_fold_events hub.viewers s m

theorem fanout_semantics_witness :
    BroadcastToViewers "t" (Msg.raw [7]) sFix2 = sFix2 ∧
    (BroadcastToViewers "s" (Msg.raw [7]) sFix2).queues 1
        = (sFix2.queues 1).map (fun q => trySend q (Msg.raw [7])) ∧
    (BroadcastToViewers "s" (Msg.raw [7]) sFix2).queues 0 = sFix2.queues 0 :=
  ⟨(fanout_semantics "t" (Msg.raw [7]) sFix2).1 (by decide),
   ((fanout_semantics "s" (Msg.raw [7]) sFix2).2
      { streamID := "s", broadcaster := some 0, viewers := [1, 2] }
      (by decide) (by decide)).1 1 (by decide),
   ((fanout_semantics "s" (Msg.raw [7]) sFix2).2
      { streamID := "s", broadcaster := some 0, viewers := [1, 2] }
      (by decide) (by decide)).2.1 0 (by decide)⟩

/-! ### Deregistration of unregistered connections (claim C4) -/

theorem removeViewer_of_not_mem (l : List Nat) (a : Nat) (h : a ∉ l) :
    removeViewer l a = l := by
  unfold removeViewer
  apply List.filter_eq_self.mpr
  intro x hx
  have hne : x ≠ a := fun he => h (he ▸ hx)
  simp [hne]

/-- C4 (counterexample): deregistering the never-registered subscriber
connection 2 on state `sFix` is not a no-op — it pushes a `viewer_count`
message onto the registered producer's outbound queue. -/
theorem deregister_unregistered_counterexample :
    (unregisterClient cGhost sFix).queues 0 ≠ sFix.queues 0 := by
  decide

/-- C4 (amended): Deregister of a connection not currently registered is a full
no-op only when its session is absent from the Registry.  When the session
exists: for a subscriber-role connection not in the viewer set, membership, the
producer reference and every queue's closed status are unchanged and only the
producer's queue can change (by the viewer-count notification); for a
producer-role connection the session is torn down regardless of the
connection's identity. -/
theorem deregister_unregistered (c : Client) (s : HubState) :
    (s.streams c.streamID = none → unregisterClient c s = s) ∧
    (∀ hub, c.isMobile = false → s.streams c.streamID = some hub → c.id ∉ hub.viewers →
      (hub.broadcaster ≠ none ∨ hub.viewers ≠ []) →
      (unregisterClient c s).streams = s.streams ∧
      (∀ n, hub.broadcaster ≠ some n → (unregisterClient c s).queues n = s.queues n) ∧
      (∀ n, ((unregisterClient c s).queues n).map Queue.closed
              = (s.queues n).map Queue.closed)) ∧
    (∀ hub, c.isMobile = true → s.streams c.streamID = some hub →
      (unregisterClient c s).streams c.streamID = none) := by
  refine ⟨fun hs => unregisterClient_absent c s hs, ?_, ?_⟩
  · intro hub hm hs hmem hne
    have hrm : removeViewer hub.viewers c.id = hub.viewers :=
      removeViewer_of_not_mem hub.viewers c.id hmem
    have hcond : ¬(hub.broadcaster = none ∧ removeViewer hub.viewers c.id = []) := by
      rw [hrm]
      rintro ⟨h1, h2⟩
      rcases hne with hne | hne
      · exact hne h1
      · exact hne h2
    refine ⟨?_, ?_, ?_⟩
    · funext sid
      rw [unregisterClient_streams_sub c s hub hm hs sid]
      by_cases he : sid = c.streamID
      · rw [if_pos he, if_neg hcond, hrm, he, hs]
      · rw [if_neg he]
    · intro n hn
      rw [unregisterClient_queues_sub c s hub hm hs n, notify_queues]
      simp only [if_neg hmem]
      rcases hb : hub.broadcaster with _ | b
      · rfl
      · have hnb : ¬n = b := fun h => hn (h ▸ hb)
        dsimp only
        rw [if_neg hnb]
    · intro n
      rw [unregisterClient_queues_sub c s hub hm hs n, notify_queues]
      simp only [if_neg hmem]
      rcases hb : hub.broadcaster with _ | b
      · rfl
      · dsimp only
        by_cases hnb : n = b
        · subst hnb
          rw [if_pos rfl]
          cases s.queues n <;> simp [trySend_closed]
        · rw [if_neg hnb]
  · intro hub hm hs
    rw [unregisterClient_streams_mobile c s hub hm hs, if_pos rfl]

theorem deregister_unregistered_witness :
    unregisterClient cGhost hubInit = hubInit ∧
    (unregisterClient cGhost sFix).streams = sFix.streams ∧
    (unregisterClient cGhost sFix).queues 1 = sFix.queues 1 ∧
    ((unregisterClient cGhost sFix).queues 0).map Queue.closed
        = (sFix.queues 0).map Queue.closed ∧
    (unregisterClient { id := 5, streamID := "s", isMobile := true } sFix).streams "s"
        = none :=
  ⟨(deregister_unregistered cGhost hubInit).1 rfl,
   ((deregister_unregistered cGhost sFix).2.1
      { streamID := "s", broadcaster := some 0, viewers := [1] }
      (by decide) (by decide) (by decide) (by decide)).1,
   ((deregister_unregistered cGhost sFix).2.1
      { streamID := "s", broadcaster := some 0, viewers := [1] }
      (by decide) (by decide) (by decide) (by decide)).2.1 1 (by decide),
   ((deregister_unregistered cGhost sFix).2.1
      { streamID := "s", broadcaster := some 0, viewers := [1] }
      (by decide) (by decide) (by decide) (by decide)).2.2 0,
   (deregister_unregistered { id := 5, streamID := "s", isMobile := true } sFix).2.2
      { streamID := "s", broadcaster := some 0, viewers := [1] }
      (by decide) (by decide)⟩

/-- C5 (code bug): deleting session "s" while subscriber 1 is connected closes
the subscriber's outbound queue with its contents still empty: no
`stream_closed` notification (nor any message at all) is enqueued before the
forced disconnect — the backend has no code path producing `Msg.streamClosed`,
although the bundled frontend has a handler waiting for it. -/
theorem delete_stream_sends_no_notification :
    (deleteStream 100 "s" wDel).1 = AdmitResult.admitted ∧
      (deleteStream 100 "s" wDel).2.hub.queues 1 = some { msgs := [], closed := true } := by
  decide

/-- C6: the viewer-count notification protocol scenario on session "abc":
after Register(producer), each subscriber Register enqueues exactly one
`viewer_count` message on the producer's queue carrying the post-join count and
newUser = true (1 then 2), a subscriber Deregister enqueues one with the
post-leave count and newUser = false, and GetViewerCount agrees. -/
theorem viewer_count_notification_scenario :
    sAfterA.queues 0 = some { msgs := [Msg.viewerCount "abc" 1 true], closed := false } ∧
    sAfterB.queues 0 = some { msgs := [Msg.viewerCount "abc" 1 true,
                                       Msg.viewerCount "abc" 2 true], closed := false } ∧
    sAfterDel.queues 0 = some { msgs := [Msg.viewerCount "abc" 1 true,
                                         Msg.viewerCount "abc" 2 true,
                                         Msg.viewerCount "abc" 1 false], closed := false } ∧
    GetViewerCount "abc" sAfterDel = 1 := by
  decide

/-- C9: both WebSocket endpoints perform the store check before any upgrade or
registration: a session identifier absent from the store yields the not-found
condition and a soft-deleted one the distinguishable gone condition, in both
cases leaving the hub state untouched (no partial registration). -/
theorem admission_check (isMobile : Bool) (sid : String) (cid : Nat)
    (db : List StreamRec) (s : HubState) :
    (sid ≠ "" → findRec db sid = none →
      wsHandler isMobile sid cid db s = (AdmitResult.notFound, s)) ∧
    (∀ r, sid ≠ "" → findRec db sid = some r → r.deletedAt ≠ none →
      wsHandler isMobile sid cid db s = (AdmitResult.gone, s)) ∧
    AdmitResult.notFound ≠ AdmitResult.gone := by
  refine ⟨?_, ?_, by decide⟩
  · intro hne hf
    simp [wsHandler, checkAdmission, hne, hf]
  · intro r hne hf hd
    rcases hdel : r.deletedAt with _ | t
    · exact absurd hdel hd
    · simp [wsHandler, checkAdmission, hne, hf, hdel]

theorem admission_check_witness :
    wsHandler true "missing" 5 dbAdmit hubInit = (AdmitResult.notFound, hubInit) ∧
    wsHandler false "dead" 6 dbAdmit hubInit = (AdmitResult.gone, hubInit) :=
  ⟨(admission_check true "missing" 5 dbAdmit hubInit).1 (by decide) (by decide),
   (admission_check false "dead" 6 dbAdmit hubInit).2.1
     { streamID := "dead", createdAt := 0, updatedAt := 5, isActive := false,
       autoCancelled := false, deletedAt := some 5, lastConnectionAt := none }
     (by decide) (by decide) (by decide)⟩

/-- C10: processing one inbound message on a registered connection is a
complete no-op — registry membership, every queue, and the persistence trace
unchanged — whenever the connection is a subscriber, or the message is not
valid JSON, or its envelope type is not stream_data; the read loop then simply
continues (it exits only on transport read errors, outside this function). -/
theorem inbound_noop_frame (c : Client) (m : Inbound) (s : HubState)
    (h : c.isMobile = false ∨ isStreamData m = false) :
    readPumpStep c m s = s := by
  rcases h with h | h
  · simp [readPumpStep, h]
  · cases m with
    | notJSON b => simp [readPumpStep]
    | json b ty p =>
      have hne : ty ≠ "stream_data" := by simpa [isStreamData] using h
      simp [readPumpStep, hne]

theorem inbound_noop_frame_witness :
    readPumpStep cSubA (Inbound.json [1] "viewer_count" 0) sFix = sFix :=
  inbound_noop_frame cSubA (Inbound.json [1] "viewer_count" 0) sFix (Or.inl rfl)

/-! ### Viewer counting (claim C3) -/

theorem insertViewer_length_of_not_mem (l : List Nat) (c : Nat) (h : c ∉ l) :
    (insertViewer l c).length = l.length + 1 := by
  unfold insertViewer
  rw [if_neg h]
  simp

theorem insertViewer_nodup (l : List Nat) (c : Nat) (h : l.Nodup) :
    (insertViewer l c).Nodup := by
  unfold insertViewer
  split
  · exact h
  · next hmem =>
    simp [List.nodup_append, h, hmem]

theorem removeViewer_cons_self (t : List Nat) (a : Nat) :
    removeViewer (a :: t) a = removeViewer t a := by
  unfold removeViewer
  rw [List.filter_cons_of_neg (by simp)]

theorem removeViewer_cons_ne (b : Nat) (t : List Nat) (a : Nat) (h : b ≠ a) :
    removeViewer (b :: t) a = b :: removeViewer t a := by
  unfold removeViewer
  rw [List.filter_cons_of_pos (by simp [h])]

theorem removeViewer_nodup (l : List Nat) (a : Nat) (h : l.Nodup) :
    (removeViewer l a).Nodup :=
  List.Nodup.filter _ h

theorem length_removeViewer (l : List Nat) (a : Nat) (hmem : a ∈ l) (hnd : l.Nodup) :
    (removeViewer l a).length + 1 = l.length := by
  induction l with
  | nil => cases hmem
  | cons b t ih =>
    rcases List.nodup_cons.mp hnd with ⟨hbt, hnd'⟩
    by_cases hba : b = a
    · subst hba
      rw [removeViewer_cons_self, removeViewer_of_not_mem t b hbt]
      simp
    · rcases List.mem_cons.mp hmem with he | ht
      · exact absurd he.symm hba
      · rw [removeViewer_cons_ne b t a hba]
        simp only [List.length_cons]
        rw [← ih ht hnd']

theorem currentViewers_eq (s : HubState) (sid : String) (hub : StreamHub)
    (hs : s.streams sid = some hub) : currentViewers s sid = hub.viewers := by
  unfold currentViewers
  rw [hs]

theorem getVC_currentViewers (sid : String) (s : HubState) :
    GetViewerCount sid s = (currentViewers s sid).length := by
  unfold GetViewerCount currentViewers
  cases s.streams sid <;> rfl

theorem currentViewers_register_mobile (c : Client) (s : HubState) (hm : c.isMobile = true)
    (sid : String) :
    currentViewers (registerClient c s) sid = currentViewers s sid := by
  unfold currentViewers
  rw [registerClient_streams_mobile c s hm sid]
  by_cases he : sid = c.streamID
  · rw [if_pos he, he]
    rcases hs : s.streams c.streamID with _ | hub <;> rfl
  · rw [if_neg he]

theorem currentViewers_register_sub (c : Client) (s : HubState) (hm : c.isMobile = false) :
    currentViewers (registerClient c s) c.streamID
      = insertViewer (currentViewers s c.streamID) c.id := by
  unfold currentViewers
  rw [registerClient_streams_sub c s hm c.streamID, if_pos rfl]
  rcases hs : s.streams c.streamID with _ | hub <;> rfl

theorem currentViewers_deregister_sub (c : Client) (s : HubState) (hub : StreamHub)
    (hm : c.isMobile = false) (hs : s.streams c.streamID = some hub) :
    currentViewers (unregisterClient c s) c.streamID =
      if hub.broadcaster = none ∧ removeViewer hub.viewers c.id = [] then []
      else removeViewer hub.viewers c.id := by
  unfold currentViewers
  rw [unregisterClient_streams_sub c s hub hm hs, if_pos rfl]
  by_cases hcond : hub.broadcaster = none ∧ removeViewer hub.viewers c.id = []
  · rw [if_pos hcond, if_pos hcond]
  · rw [if_neg hcond, if_neg hcond]

theorem getVC_register_mobile (c : Client) (s : HubState) (hm : c.isMobile = true)
    (sid : String) :
    GetViewerCount sid (registerClient c s) = GetViewerCount sid s := by
  rw [getVC_currentViewers, getVC_currentViewers, currentViewers_register_mobile c s hm sid]

theorem getVC_register_sub (c : Client) (s : HubState) (hm : c.isMobile = false)
    (hfresh : c.id ∉ currentViewers s c.streamID) :
    GetViewerCount c.streamID (registerClient c s) = GetViewerCount c.streamID s + 1 := by
  rw [getVC_currentViewers, getVC_currentViewers, currentViewers_register_sub c s hm,
    insertViewer_length_of_not_mem _ _ hfresh]

theorem getVC_deregister_mobile (c : Client) (s : HubState) (hm : c.isMobile = true) :
    GetViewerCount c.streamID (unregisterClient c s) = 0 := by
  rcases hs : s.streams c.streamID with _ | hub
  · rw [unregisterClient_absent c s hs, getVC_currentViewers]
    unfold currentViewers
    rw [hs]
    rfl
  · rw [getVC_currentViewers]
    unfold currentViewers
    rw [unregisterClient_streams_mobile c s hub hm hs, if_pos rfl]
    rfl

theorem getVC_deregister_sub (c : Client) (s : HubState) (hm : c.isMobile = false)
    (hmem : c.id ∈ currentViewers s c.streamID) (hWF : viewersWF s) :
    GetViewerCount c.streamID (unregisterClient c s) + 1 = GetViewerCount c.streamID s := by
  rcases hs : s.streams c.streamID with _ | hub
  · exfalso
    unfold currentViewers at hmem
    rw [hs] at hmem
    exact absurd hmem (List.not_mem_nil _)
  · have hmem' : c.id ∈ hub.viewers := by
      rw [currentViewers_eq s c.streamID hub hs] at hmem
      exact hmem
    have hnd := hWF c.streamID hub hs
    rw [getVC_currentViewers, getVC_currentViewers,
      currentViewers_deregister_sub c s hub hm hs, currentViewers_eq s c.streamID hub hs]
    by_cases hcond : hub.broadcaster = none ∧ removeViewer hub.viewers c.id = []
    · rw [if_pos hcond]
      have hlen := length_removeViewer hub.viewers c.id hmem' hnd
      rw [hcond.2] at hlen
      simpa using hlen
    · rw [if_neg hcond]
      exact length_removeViewer hub.viewers c.id hmem' hnd

theorem viewersWF_hubInit : viewersWF hubInit := by
  intro sid hub h
  simp [hubInit] at h

theorem viewersWF_register (c : Client) (s : HubState) (h : viewersWF s) :
    viewersWF (registerClient c s) := by
  intro sid hub hhub
  by_cases hm : c.isMobile = true
  · rw [registerClient_streams_mobile c s hm] at hhub
    by_cases he : sid = c.streamID
    · rw [if_pos he] at hhub
      cases hhub
      rcases hs : s.streams c.streamID with _ | hub0
      · exact List.nodup_nil
      · exact h c.streamID hub0 hs
    · rw [if_neg he] at hhub
      exact h sid hub hhub
  · rw [registerClient_streams_sub c s (by simpa using hm)] at hhub
    by_cases he : sid = c.streamID
    · rw [if_pos he] at hhub
      cases hhub
      apply insertViewer_nodup
      rcases hs : s.streams c.streamID with _ | hub0
      · exact List.nodup_nil
      · exact h c.streamID hub0 hs
    · rw [if_neg he] at hhub
      exact h sid hub hhub

theorem viewersWF_deregister (c : Client) (s : HubState) (h : viewersWF s) :
    viewersWF (unregisterClient c s) := by
  intro sid hub hhub
  rcases hs : s.streams c.streamID with _ | hub0
  · rw [unregisterClient_absent c s hs] at hhub
    exact h sid hub hhub
  · by_cases hm : c.isMobile = true
    · rw [unregisterClient_streams_mobile c s hub0 hm hs] at hhub
      by_cases he : sid = c.streamID
      · rw [if_pos he] at hhub
        exact absurd hhub (by simp)
      · rw [if_neg he] at hhub
        exact h sid hub hhub
    · rw [unregisterClient_streams_sub c s hub0 (by simpa using hm) hs] at hhub
      by_cases he : sid = c.streamID
      · rw [if_pos he] at hhub
        split at hhub
        · exact absurd hhub (by simp)
        · cases hhub
          exact removeViewer_nodup _ _ (h c.streamID hub0 hs)
      · rw [if_neg he] at hhub
        exact h sid hub hhub

theorem subRegCount_cons_reg (c : Client) (ops : List Op) :
    subRegCount (Op.register c :: ops)
      = (if c.isMobile then 0 else 1) + subRegCount ops := by
  unfold subRegCount
  rcases hm : c.isMobile with _ | _
  · simp only [List.filter_cons]
    simp [hm]
    omega
  · simp [List.filter_cons, hm]

theorem subRegCount_cons_dereg (c : Client) (ops : List Op) :
    subRegCount (Op.deregister c :: ops) = subRegCount ops := by
  unfold subRegCount
  simp [List.filter_cons]

theorem subDeregCount_cons_reg (c : Client) (ops : List Op) :
    subDeregCount (Op.register c :: ops) = subDeregCount ops := by
  unfold subDeregCount
  simp [List.filter_cons]

theorem subDeregCount_cons_dereg (c : Client) (ops : List Op) :
    subDeregCount (Op.deregister c :: ops)
      = (if c.isMobile then 0 else 1) + subDeregCount ops := by
  unfold subDeregCount
  rcases hm : c.isMobile with _ | _
  · simp only [List.filter_cons]
    simp [hm]
    omega
  · simp [List.filter_cons, hm]

theorem viewer_count_net_aux (sid : String) (ops : List Op) (s : HubState)
    (hWF : viewersWF s) (hsid : ∀ op ∈ ops, opSession op = sid)
    (hvalid : validTrace s ops = true) :
    GetViewerCount sid (run ops s) + subDeregCount ops
      = GetViewerCount sid s + subRegCount ops := by
  induction ops generalizing s with
  | nil => simp [run, subRegCount, subDeregCount]
  | cons op rest ih =>
    have hsid' : ∀ o ∈ rest, opSession o = sid :=
      fun o ho => hsid o (List.mem_cons_of_mem op ho)
    cases op with
    | register c =>
      have hvalid' : ((c.isMobile || !((currentViewers s c.streamID).contains c.id))
            && validTrace (registerClient c s) rest) = true := hvalid
      rcases Bool.and_eq_true _ _ ▸ hvalid' with ⟨hcond, hrest⟩
      have hcs : c.streamID = sid := hsid (Op.register c) (List.mem_cons_self _ _)
      have ihr := ih (registerClient c s) (viewersWF_register c s hWF) hsid' hrest
      have hrun : run (Op.register c :: rest) s = run rest (registerClient c s) := rfl
      rw [hrun, subRegCount_cons_reg, subDeregCount_cons_reg]
      rcases hm : c.isMobile with _ | _
      · have hfresh : c.id ∉ currentViewers s c.streamID := by
          rw [hm] at hcond
          simpa using hcond
        have hstep := getVC_register_sub c s hm hfresh
        rw [hcs] at hstep
        rw [if_neg (by simp [hm])]
        omega
      · have hstep := getVC_register_mobile c s hm sid
        rw [show (if (true = true) then 0 else 1) = 0 from rfl]
        omega
    | deregister c =>
      have hvalid' : (((!c.isMobile) && (currentViewers s c.streamID).contains c.id)
            && validTrace (unregisterClient c s) rest) = true := hvalid
      rcases Bool.and_eq_true _ _ ▸ hvalid' with ⟨hcond, hrest⟩
      rcases Bool.and_eq_true _ _ ▸ hcond with ⟨hm', hmem'⟩
      have hm : c.isMobile = false := by simpa using hm'
      have hmem : c.id ∈ currentViewers s c.streamID := by simpa using hmem'
      have hcs : c.streamID = sid := hsid (Op.deregister c) (List.mem_cons_self _ _)
      have ihr := ih (unregisterClient c s) (viewersWF_deregister c s hWF) hsid' hrest
      have hrun : run (Op.deregister c :: rest) s = run rest (unregisterClient c s) := rfl
      rw [hrun, subRegCount_cons_dereg, subDeregCount_cons_dereg]
      have hstep := getVC_deregister_sub c s hm hmem hWF
      rw [hcs] at hstep
      rw [if_neg (by simp [hm])]
      omega
    | closeSession sid' =>
      have hvalid' : (false && validTrace (CloseStream sid' s) rest) = true := hvalid
      simp at hvalid'

/-- C3 (counterexample): for the single-session sequence
register(producer), register(subscriber), deregister(producer), the net
subscriber count is 1 but ViewerCount afterwards is 0 — the producer's
deregistration cleared the whole subscriber set, so producer deregistrations do
change the value and the claimed equality fails. -/
theorem viewer_count_net_counterexample :
    (∀ op ∈ opsCex, opSession op = "s") ∧
    subRegCount opsCex = 1 ∧ subDeregCount opsCex = 0 ∧
    GetViewerCount "s" (run opsCex hubInit) = 0 := by
  decide

/-- C3 (amended): over any single-session sequence of Register/Deregister
calls in which each subscriber registration adds a connection not currently in
the subscriber set, each subscriber deregistration removes one that is, and the
producer is never deregistered, ViewerCount afterwards equals subscriber
registrations minus subscriber deregistrations; producer registrations indeed
never change ViewerCount, but a producer deregistration resets it to zero. -/
theorem viewer_count_net (sid : String) :
    (∀ ops, (∀ op ∈ ops, opSession op = sid) → validTrace hubInit ops = true →
      GetViewerCount sid (run ops hubInit) + subDeregCount ops = subRegCount ops) ∧
    (∀ c s, c.isMobile = true →
      GetViewerCount sid (registerClient c s) = GetViewerCount sid s) ∧
    (∀ c s, c.isMobile = true → GetViewerCount c.streamID (unregisterClient c s) = 0) := by
  refine ⟨?_, ?_, ?_⟩
  · intro ops hs hv
    have := viewer_count_net_aux sid ops hubInit viewersWF_hubInit hs hv
    simpa [GetViewerCount, hubInit] using this
  · intro c s hm
    exact getVC_register_mobile c s hm sid
  · intro c s hm
    exact getVC_deregister_mobile c s hm

theorem viewer_count_net_witness :
    GetViewerCount "s" (run opsW hubInit) + subDeregCount opsW = subRegCount opsW ∧
    GetViewerCount "s" (registerClient cProdFix sFix) = GetViewerCount "s" sFix ∧
    GetViewerCount cProdFix.streamID (unregisterClient cProdFix sFix) = 0 :=
  ⟨(viewer_count_net "s").1 opsW (by decide) (by decide),
   (viewer_count_net "s").2.1 cProdFix sFix rfl,
   (viewer_count_net "s").2.2 cProdFix sFix rfl⟩

/-! ### The inactivity sweep (claim C8) -/

theorem findRec_mapIf (db : List StreamRec) (sid x : String) (g : StreamRec -> StreamRec)
    (hg : ∀ r, (g r).streamID = r.streamID) :
    findRec (db.map (fun r => if r.streamID = sid then g r else r)) x
      = if x = sid then (findRec db x).map g else findRec db x := by
  induction db with
  | nil => by_cases hx : x = sid <;> simp [findRec, hx]
  | cons r t ih =>
    unfold findRec at ih ⊢
    rw [List.map_cons]
    by_cases hhead : r.streamID = x
    · have hmapPos : ((if r.streamID = sid then g r else r).streamID = x) := by
        split
        · rw [hg r]
          exact hhead
        · exact hhead
      rw [List.find?_cons_of_pos _ (by simpa using hmapPos)]
      by_cases hr : r.streamID = sid
      · rw [if_pos hr, List.find?_cons_of_pos _ (by simp [hg, hhead])]
        rw [if_pos (by rw [← hhead, hr])]
        rfl
      · rw [if_neg hr, List.find?_cons_of_pos _ (by simp [hhead])]
        rw [if_neg (fun hx : x = sid => hr (hx ▸ hhead))]
    · have hmap : ¬((if r.streamID = sid then g r else r).streamID = x) := by
        split
        · rw [hg r]
          exact hhead
        · exact hhead
      rw [List.find?_cons_of_neg _ (by simpa using hmap),
        List.find?_cons_of_neg _ (by simp [hhead]), ih]

theorem findRec_self (db : List StreamRec) (r : StreamRec)
    (hnd : (db.map StreamRec.streamID).Nodup) (hmem : r ∈ db) :
    findRec db r.streamID = some r := by
  induction db with
  | nil => cases hmem
  | cons h t ih =>
    rw [List.map_cons] at hnd
    rcases List.nodup_cons.mp hnd with ⟨hh, hnd'⟩
    unfold findRec at ih ⊢
    by_cases hhead : h.streamID = r.streamID
    · rw [List.find?_cons_of_pos _ (by simp [hhead])]
      rcases List.mem_cons.mp hmem with he | ht
      · rw [he]
      · exact absurd (by rw [hhead]; exact List.mem_map_of_mem StreamRec.streamID ht) hh
    · rw [List.find?_cons_of_neg _ (by simp [hhead])]
      rcases List.mem_cons.mp hmem with he | ht
      · exact absurd (by rw [he]) hhead
      · exact ih hnd' ht

theorem hasActive_congr (sid : String) (s s' : HubState)
    (h : s.streams sid = s'.streams sid) :
    HasActiveConnections sid s = HasActiveConnections sid s' := by
  unfold HasActiveConnections
  rw [h]

theorem sweepStep_db_other (now : Nat) (w : World) (r : StreamRec) (x : String)
    (hne : ¬x = r.streamID) :
    findRec (sweepStep now w r).db x = findRec w.db x := by
  unfold sweepStep
  split
  · show findRec (refreshLastConnection now r.streamID w.db) x = _
    unfold refreshLastConnection
    rw [findRec_mapIf w.db r.streamID x
      (fun d => { d with lastConnectionAt := some now }) (fun _ => rfl), if_neg hne]
  · show findRec (autoCancelStream now r.streamID w).db x = _
    unfold autoCancelStream
    dsimp only
    rw [findRec_mapIf w.db r.streamID x
      (fun d => { d with isActive := false, autoCancelled := true,
                         deletedAt := some now, updatedAt := now }) (fun _ => rfl), if_neg hne]

theorem sweepStep_hub_other (now : Nat) (w : World) (r : StreamRec) (x : String)
    (hne : ¬x = r.streamID) :
    (sweepStep now w r).hub.streams x = w.hub.streams x := by
  unfold sweepStep
  split
  · rfl
  · show (autoCancelStream now r.streamID w).hub.streams x = _
    unfold autoCancelStream
    rw [CloseStream_streams, if_neg hne]

theorem sweepFold_other (now : Nat) (cs : List StreamRec) (w : World) (x : String)
    (hx : ∀ cRec ∈ cs, ¬x = cRec.streamID) :
    findRec (cs.foldl (sweepStep now) w).db x = findRec w.db x ∧
      (cs.foldl (sweepStep now) w).hub.streams x = w.hub.streams x := by
  induction cs generalizing w with
  | nil => exact ⟨rfl, rfl⟩
  | cons cRec t ih =>
    have hne : ¬x = cRec.streamID := hx cRec (List.mem_cons_self _ _)
    have hx' : ∀ o ∈ t, ¬x = o.streamID := fun o ho => hx o (List.mem_cons_of_mem cRec ho)
    have hstep := ih (sweepStep now w cRec) hx'
    refine ⟨?_, ?_⟩
    · show findRec (t.foldl (sweepStep now) (sweepStep now w cRec)).db x = _
      rw [hstep.1, sweepStep_db_other now w cRec x hne]
    · show (t.foldl (sweepStep now) (sweepStep now w cRec)).hub.streams x = _
      rw [hstep.2, sweepStep_hub_other now w cRec x hne]

/-- C8: on a sweep tick with cutoff T, a stream record is evicted (marked
inactive, auto-cancelled and deleted in the store, and its session removed via
CloseStream) exactly when the query filter holds of it — active, not deleted,
last-connection timestamp (or creation time when never connected) strictly
older than T — and HasActiveConnections is false at check time; a stale
candidate with HasActiveConnections true is skipped and only has its external
last-connection timestamp refreshed; a non-stale record is untouched. -/
theorem sweep_eviction_condition (now cutoff : Nat) (w : World) (r : StreamRec)
    (hnd : (w.db.map StreamRec.streamID).Nodup) (hmem : r ∈ w.db) :
    (staleFilter cutoff r = false →
      findRec (cleanupInactiveStreams now cutoff w).db r.streamID = some r ∧
      (cleanupInactiveStreams now cutoff w).hub.streams r.streamID
        = w.hub.streams r.streamID) ∧
    (staleFilter cutoff r = true → HasActiveConnections r.streamID w.hub = true →
      findRec (cleanupInactiveStreams now cutoff w).db r.streamID
        = some { r with lastConnectionAt := some now } ∧
      (cleanupInactiveStreams now cutoff w).hub.streams r.streamID
        = w.hub.streams r.streamID) ∧
    (staleFilter cutoff r = true → HasActiveConnections r.streamID w.hub = false →
      findRec (cleanupInactiveStreams now cutoff w).db r.streamID
        = some { r with isActive := false, autoCancelled := true,
                        deletedAt := some now, updatedAt := now } ∧
      (cleanupInactiveStreams now cutoff w).hub.streams r.streamID = none) := by
  have hfind : findRec w.db r.streamID = some r := findRec_self w.db r hnd hmem
  refine ⟨?_, ?_, ?_⟩
  · intro hstale
    have hx : ∀ cRec ∈ w.db.filter (staleFilter cutoff), ¬r.streamID = cRec.streamID := by
      intro cRec hc he
      rcases List.mem_filter.mp hc with ⟨hcdb, hcstale⟩
      have heq : cRec = r := List.inj_on_of_nodup_map hnd hcdb hmem he.symm
      rw [heq, hstale] at hcstale
      cases hcstale
    have h := sweepFold_other now (w.db.filter (staleFilter cutoff)) w r.streamID hx
    exact ⟨h.1.trans hfind, h.2⟩
  all_goals
    intro hstale hact
    have hcand : r ∈ w.db.filter (staleFilter cutoff) := List.mem_filter.mpr ⟨hmem, hstale⟩
    rcases List.append_of_mem hcand with ⟨l1, l2, hsplit⟩
    have hndc : ((w.db.filter (staleFilter cutoff)).map StreamRec.streamID).Nodup :=
      hnd.sublist ((List.filter_sublist _).map _)
    rw [hsplit, List.map_append, List.map_cons] at hndc
    have hnotl1 : r.streamID ∉ l1.map StreamRec.streamID :=
      fun hin => List.disjoint_of_nodup_append hndc hin (List.mem_cons_self _ _)
    have hnotl2 : r.streamID ∉ l2.map StreamRec.streamID :=
      (List.nodup_cons.mp hndc.of_append_right).1
    have hxl1 : ∀ cRec ∈ l1, ¬r.streamID = cRec.streamID := fun cRec hc he =>
      hnotl1 (he.symm ▸ List.mem_map_of_mem StreamRec.streamID hc)
    have hxl2 : ∀ cRec ∈ l2, ¬r.streamID = cRec.streamID := fun cRec hc he =>
      hnotl2 (he.symm ▸ List.mem_map_of_mem StreamRec.streamID hc)
    have hw1 := sweepFold_other now l1 w r.streamID hxl1
    set w1 := l1.foldl (sweepStep now) w with hw1def
    have hfind1 : findRec w1.db r.streamID = some r := hw1.1.trans hfind
    have hdecomp : cleanupInactiveStreams now cutoff w
        = l2.foldl (sweepStep now) (sweepStep now w1 r) := by
      show (w.db.filter (staleFilter cutoff)).foldl (sweepStep now) w = _
      rw [hsplit, List.foldl_append, List.foldl_cons, ← hw1def]
    have hrest := sweepFold_other now l2 (sweepStep now w1 r) r.streamID hxl2
  case _ =>
    have hsw : sweepStep now w1 r
        = { w1 with db := refreshLastConnection now r.streamID w1.db } := by
      unfold sweepStep
      rw [if_pos (by rw [hasActive_congr r.streamID w1.hub w.hub hw1.2]; exact hact)]
    have hfind2 : findRec (sweepStep now w1 r).db r.streamID
        = some { r with lastConnectionAt := some now } := by
      rw [hsw]
      show findRec (refreshLastConnection now r.streamID w1.db) r.streamID = _
      unfold refreshLastConnection
      rw [findRec_mapIf _ r.streamID r.streamID
        (fun d => { d with lastConnectionAt := some now }) (fun _ => rfl), if_pos rfl, hfind1]
      rfl
    have hhub2 : (sweepStep now w1 r).hub.streams r.streamID
        = w.hub.streams r.streamID := by
      rw [hsw]
      exact hw1.2
    rw [hdecomp]
    exact ⟨hrest.1.trans hfind2, hrest.2.trans hhub2⟩
  case _ =>
    have hsw : sweepStep now w1 r = autoCancelStream now r.streamID w1 := by
      unfold sweepStep
      rw [if_neg (by rw [hasActive_congr r.streamID w1.hub w.hub hw1.2, hact]; simp)]
    have hfind2 : findRec (sweepStep now w1 r).db r.streamID
        = some { r with isActive := false, autoCancelled := true,
                        deletedAt := some now, updatedAt := now } := by
      rw [hsw]
      show findRec (autoCancelStream now r.streamID w1).db r.streamID = _
      unfold autoCancelStream
      dsimp only
      rw [findRec_mapIf _ r.streamID r.streamID
        (fun d => { d with isActive := false, autoCancelled := true,
                           deletedAt := some now, updatedAt := now }) (fun _ => rfl),
        if_pos rfl, hfind1]
      rfl
    have hhub2 : (sweepStep now w1 r).hub.streams r.streamID = none := by
      rw [hsw]
      show (autoCancelStream now r.streamID w1).hub.streams r.streamID = none
      unfold autoCancelStream
      dsimp only
      rw [CloseStream_streams, if_pos rfl]
    rw [hdecomp]
    exact ⟨hrest.1.trans hfind2, hrest.2.trans hhub2⟩

theorem sweep_eviction_condition_witness :
    findRec (cleanupInactiveStreams 100 50 wSweep).db recStale.streamID
        = some { recStale with isActive := false, autoCancelled := true,
                               deletedAt := some 100, updatedAt := 100 } ∧
      (cleanupInactiveStreams 100 50 wSweep).hub.streams recStale.streamID = none :=
  (sweep_eviction_condition 100 50 wSweep recStale (by decide) (by decide)).2.2
    (by decide) (by decide)
